import Mathlib

/-!
Shallow embedding of the algopytest transaction pipeline
(`algopytest/transaction_ops.py`, `algopytest/client_ops.py`,
`algopytest/entities.py`).  Pure Python data is translated to Lean
structures; the network facade and the few algosdk primitives the
pipeline relies on are explicit parameters, or are modelled from the
spec where noted.  Side effects of one pipeline invocation (parameter
fetches, log lines, signing, submission, confirmation waits,
confirmed-info fetches, plus the builder invocation) are reified as an
event trace returned alongside the call's result.
-/

namespace Algopytest

/-- `entities.AlgoUser`: address, optional private key, optional display name. -/
structure AlgoUser where
  address : String
  private_key : Option String := none
  name : Option String := none
deriving DecidableEq, Repr

/-- `entities._NullUser`: the placeholder account with an empty address. -/
def _NullUser : AlgoUser := { address := "" }

/-- The algosdk suggested-parameters record: the two fee fields the pipeline
overrides, plus the remaining network-supplied validity fields collapsed
into `first`/`last`. -/
structure SuggestedParams where
  fee : Nat
  flat_fee : Bool
  first : Nat
  last : Nat
deriving DecidableEq, Repr

/-- `client_ops.suggested_params` (lines 76-86): fetch the suggested
parameters from the algod client and overwrite the supplied attributes
(here, the two the pipeline ever passes: `flat_fee` and `fee`). -/
def suggested_params (net_params : SuggestedParams) (flat_fee : Bool) (fee : Nat) :
    SuggestedParams :=
  { net_params with flat_fee := flat_fee, fee := fee }

/-- Observable effects of one pipeline invocation, in order of occurrence.
`build` records the `params` keyword argument with which the wrapped
builder function was invoked. -/
inductive Event (S : Type) where
  | fetch_params (flat_fee : Bool) (fee : Nat)
  | log (msg : String)
  | build (params : Option SuggestedParams)
  | sign_txn (signer_address : String)
  | send (txns : List S)
  | wait_confirmation (txn_id : Nat) (rounds : Nat)
  | pending_info (txn_id : Nat)
deriving DecidableEq, Repr

/-- The Network Access Facade as the pipeline consumes it: the raw
parameters the algod client would return, submission of a list of
submittable forms returning a transaction id
(`client_ops.process_transactions`), and the confirmed-info fetch
(`client_ops.pending_transaction_info`). -/
structure Network (S Info : Type) where
  net_params : SuggestedParams
  process_transactions : List S → Nat
  pending_transaction_info : Nat → Info

/-- The five module-level switch globals of `transaction_ops.py`
(lines 22-27), each a nullable boolean, `none` meaning unset. -/
structure Globals where
  no_log : Option Bool := none
  no_params : Option Bool := none
  no_send : Option Bool := none
  no_sign : Option Bool := none
  with_txn_id : Option Bool := none
deriving DecidableEq, Repr

/-- The keyword configuration accepted by `transaction_boilerplate`
(lines 140-147): five switch defaults plus the two optional result hooks. -/
structure BoilerplateConfig (Info R : Type) where
  no_log : Bool := false
  no_params : Bool := false
  no_send : Bool := false
  no_sign : Bool := false
  with_txn_id : Bool := false
  format_finish : Option (Info → String) := none
  return_fn : Option (Info → R) := none

/-- Two-level switch resolution (lines 157-161): the declared decorator
default is used exactly when the process-wide override is unset. -/
def resolve (override : Option Bool) (declared : Bool) : Bool :=
  match override with
  | none => declared
  | some v => v

/-- The `params` value the wrapped builder receives (lines 174-177): when
the caller supplied none and injection is not suppressed, the suggested
parameters with flat-fee mode on and the fee fixed at 1000. -/
def effective_params (f_no_params : Bool) (net_params : SuggestedParams)
    (params : Option SuggestedParams) : Option SuggestedParams :=
  if params.isNone && !f_no_params then
    some (suggested_params net_params true 1000)
  else
    params

/-- Possible results of a pipeline-wrapped call: the unsent
(signer, payload) pair under `no_send`, or the extracted result,
optionally paired with the transaction id under `with_txn_id`. -/
inductive PipelineResult (T R : Type) where
  | unsent (signer : AlgoUser) (txn : T)
  | sent (ret : Option R)
  | sent_with_id (txn_id : Nat) (ret : Option R)
deriving DecidableEq, Repr

/-- Normalization of the object to send (lines 195-198): a bare
submittable becomes a one-element list; a list is sent as is. -/
def normalize_to_list {S : Type} : S ⊕ List S → List S
  | Sum.inl s => [s]
  | Sum.inr l => l

/-- The events of pipeline lines 174-182 in program order: the optional
suggested-parameters fetch, the optional running-log line, and the builder
invocation with the effective params. -/
def pre_trace {S : Type} (f_no_log f_no_params : Bool) (net_params : SuggestedParams)
    (func_name : String) (params : Option SuggestedParams) : List (Event S) :=
  (if params.isNone && !f_no_params then [Event.fetch_params true 1000] else [])
    ++ (if f_no_log then [] else [Event.log ("Running " ++ func_name)])
    ++ [Event.build (effective_params f_no_params net_params params)]

/-- The events of pipeline lines 188-211 in program order: the optional
signing, the submission, the confirmation wait with its 4-round budget, the
confirmed-info fetch, and the optional finish-log line. -/
def post_trace {S : Type} (f_no_log f_no_sign : Bool) (signer_address : String)
    (out_list : List S) (txn_id : Nat) (finish_msg : String) : List (Event S) :=
  (if f_no_sign then [] else [Event.sign_txn signer_address])
    ++ [Event.send out_list, Event.wait_confirmation txn_id 4, Event.pending_info txn_id]
    ++ (if f_no_log then [] else [Event.log finish_msg])

/-- `transaction_ops.transaction_boilerplate` (lines 140-223), the wrapped
call for one operation.  `sign_with` stands for `txn.sign(signer.private_key)`
on the builder's payload type `T` (its result may be a single submittable or
a list, as in the dynamically typed source); `as_submittable` stands for
using the payload unchanged under `no_sign`.  The returned trace lists the
call's observable effects in program order. -/
def transaction_boilerplate {T S R Info : Type}
    (cfg : BoilerplateConfig Info R) (g : Globals) (net : Network S Info)
    (func_name : String)
    (sign_with : AlgoUser → T → S ⊕ List S)
    (as_submittable : T → S ⊕ List S)
    (func : Option SuggestedParams → AlgoUser × T)
    (params : Option SuggestedParams) :
    PipelineResult T R × List (Event S) :=
  let f_no_log := resolve g.no_log cfg.no_log
  let f_no_params := resolve g.no_params cfg.no_params
  let f_no_send := resolve g.no_send cfg.no_send
  let f_no_sign := resolve g.no_sign cfg.no_sign
  let f_with_txn_id := resolve g.with_txn_id cfg.with_txn_id
  let params' := effective_params f_no_params net.net_params params
  let pre : List (Event S) := pre_trace f_no_log f_no_params net.net_params func_name params
  let st := func params'
  if f_no_send then
    (PipelineResult.unsent st.1 st.2, pre)
  else
    let output_to_send := if f_no_sign then as_submittable st.2 else sign_with st.1 st.2
    let out_list := normalize_to_list output_to_send
    let txn_id := net.process_transactions out_list
    let info := net.pending_transaction_info txn_id
    let finish_msg :=
      match cfg.format_finish with
      | some fmt => "Finished " ++ func_name ++ " with: " ++ fmt info
      | none => "Finished " ++ func_name
    let ret := cfg.return_fn.map fun f => f info
    let trace := pre ++ post_trace f_no_log f_no_sign st.1.address out_list txn_id finish_msg
    if f_with_txn_id then
      (PipelineResult.sent_with_id txn_id ret, trace)
    else
      (PipelineResult.sent ret, trace)

/-- Recognizer for suggested-parameter fetch events. -/
def is_fetch {S : Type} : Event S → Bool
  | Event.fetch_params _ _ => true
  | _ => false

/-- Recognizer for log events. -/
def is_log {S : Type} : Event S → Bool
  | Event.log _ => true
  | _ => false

/-- Recognizer for signing events. -/
def is_sign {S : Type} : Event S → Bool
  | Event.sign_txn _ => true
  | _ => false

/-- Recognizer for submission events. -/
def is_send {S : Type} : Event S → Bool
  | Event.send _ => true
  | _ => false

/-- Recognizer for confirmation-wait events. -/
def is_wait {S : Type} : Event S → Bool
  | Event.wait_confirmation _ _ => true
  | _ => false

/-- Recognizer for confirmed-info fetch events. -/
def is_info {S : Type} : Event S → Bool
  | Event.pending_info _ => true
  | _ => false

/-- Number of trace events matching a recognizer. -/
def count_matching {S : Type} (p : Event S → Bool) (tr : List (Event S)) : Nat :=
  (tr.filter p).length

/-- The `params` arguments of the builder invocations recorded in a trace. -/
def build_params {S : Type} (tr : List (Event S)) : List (Option SuggestedParams) :=
  tr.filterMap fun e =>
    match e with
    | Event.build p => some p
    | _ => none

/-- Index of the first trace event matching a recognizer, if any. -/
def first_index {S : Type} (p : Event S → Bool) : List (Event S) → Option Nat
  | [] => none
  | e :: rest => if p e then some 0 else (first_index p rest).map (· + 1)

/-- Outcome of the body of a `with` block: a value, or a raised exception. -/
inductive Outcome (α : Type) where
  | ok (a : α)
  | raised
deriving DecidableEq, Repr

/-- Python `with` semantics over the switch globals: run the enter hook,
run the body (which may itself read and write the globals, and may raise),
then run the exit hook on the body's final globals whether or not the body
raised, and propagate the body's outcome. -/
def with_context {α : Type} (on_enter on_exit : Globals → Globals)
    (body : Globals → Outcome α × Globals) (g : Globals) : Outcome α × Globals :=
  let r := body (on_enter g)
  (r.1, on_exit r.2)

/-- `TxnElemsContext.__enter__` (lines 49-54): globally disable sending
and logging. -/
def TxnElemsContext.on_enter (g : Globals) : Globals :=
  { g with no_send := some true, no_log := some true }

/-- `TxnElemsContext.__exit__` (lines 56-66): reset the two globals it
manages to unset. -/
def TxnElemsContext.on_exit (g : Globals) : Globals :=
  { g with no_send := none, no_log := none }

/-- `TxnIDContext.__enter__` (lines 76-80): globally enable returning the
transaction id. -/
def TxnIDContext.on_enter (g : Globals) : Globals :=
  { g with with_txn_id := some true }

/-- `TxnIDContext.__exit__` (lines 82-91): reset the global it manages to
unset. -/
def TxnIDContext.on_exit (g : Globals) : Globals :=
  { g with with_txn_id := none }

/-- A plain algosdk transaction payload: its content fields (collapsed into
one value, since the pipeline and the group logic treat them opaquely) plus
the group-id tag, unset until group assignment. -/
structure Txn where
  content : Nat
  group : Option (List Nat) := none
deriving DecidableEq, Repr

/-- `entities.MultisigAccount`: the stored version, threshold and ordered
owner accounts the structural attributes are derived from. -/
structure MultisigAccount where
  version : Nat
  threshold : Nat
  owner_accounts : List AlgoUser
  name : Option String := none
deriving DecidableEq, Repr

/-- The algosdk multisig structural descriptor: version, threshold, the
ordered owner public keys, and the accumulated-signature state that signing
mutates onto it. -/
structure Multisig where
  version : Nat
  threshold : Nat
  public_keys : List String
  sigs : List (Option String) := []
deriving DecidableEq, Repr

/-- `entities.MultisigAccount.attributes` (lines 66-74): a fresh `Multisig`
descriptor built from the stored version, threshold and owner addresses,
with no accumulated signatures. -/
def MultisigAccount.attributes (acct : MultisigAccount) : Multisig :=
  { version := acct.version, threshold := acct.threshold
    public_keys := acct.owner_accounts.map (·.address) }

/-- The algosdk multisig transaction envelope: the wrapped plain payload and
the multisig descriptor carrying accumulated signatures. -/
structure MultisigTransaction where
  transaction : Txn
  multisig : Multisig
deriving DecidableEq, Repr

/-- Modelled from the spec: algosdk's `MultisigTransaction.sign` (an external
collaborator, not part of this repository) "sequentially applies each owner's
credential to the multisig envelope" and "does not itself check that the
number of signatures meets the threshold" (spec 4.2); one call applies one
credential onto the envelope's accumulated-signature state. -/
def MultisigTransaction.sign (m : MultisigTransaction) (private_key : Option String) :
    MultisigTransaction :=
  { m with multisig := { m.multisig with sigs := m.multisig.sigs ++ [private_key] } }

/-- `transaction_ops._MultisigTxn` (lines 1517-1532): the inner payload
(the `AlgoUser` paired with it is discarded), the explicit signer list, the
multisig account, and the multisig envelope built at construction.  In the
source `multisig_transaction.transaction` aliases `transaction`; the model
keeps both fields equal. -/
structure _MultisigTxn where
  transaction : Txn
  signing_accounts : List AlgoUser
  multisig_account : MultisigAccount
  multisig_transaction : MultisigTransaction
deriving DecidableEq, Repr

/-- `_MultisigTxn.__init__` (lines 1518-1532). -/
def _MultisigTxn.make (transaction : AlgoUser × Txn) (signing_accounts : List AlgoUser)
    (multisig_account : MultisigAccount) : _MultisigTxn :=
  { transaction := transaction.2
    signing_accounts := signing_accounts
    multisig_account := multisig_account
    multisig_transaction :=
      { transaction := transaction.2, multisig := multisig_account.attributes } }

/-- `_MultisigTxn.sign` (lines 1534-1539): ignore the supplied key, apply
each signing account's credential in list order, return the envelope. -/
def _MultisigTxn.sign (self : _MultisigTxn) (_ : Option String) : MultisigTransaction :=
  self.signing_accounts.foldl
    (fun m acct => m.sign acct.private_key) self.multisig_transaction

/-- An algosdk logic-signature account (the compiled-program-derived
signature object), opaque to the group logic. -/
structure LogicSigAccount where
  logic : Nat
deriving DecidableEq, Repr

/-- An algosdk logic-signature transaction: the wrapped plain payload plus
the program-derived signature; fully signed at construction. -/
structure LogicSigTransaction where
  transaction : Txn
  lsig : LogicSigAccount
deriving DecidableEq, Repr

/-- The payload union accepted by `_GroupTxn` (lines 1568-1572): a plain
transaction, a logic-signature transaction, or a `_MultisigTxn`. -/
inductive InputTxnType where
  | plain (t : Txn)
  | logic_sig (l : LogicSigTransaction)
  | multisig (m : _MultisigTxn)
deriving DecidableEq, Repr

/-- The flattening of `_GroupTxn.__init__` (lines 1586-1593): a
logic-signature or multisig wrapper contributes its underlying plain
payload; a plain payload contributes itself. -/
def InputTxnType.flattened : InputTxnType → Txn
  | InputTxnType.plain t => t
  | InputTxnType.logic_sig l => l.transaction
  | InputTxnType.multisig m => m.transaction

/-- Modelled from the spec: algosdk's `calculate_group_id` (inside
`assign_group_id`, an external collaborator, not part of this repository) is
"a content hash over the ordered payload list", "a pure function of
(payload content, order)" (spec 4.2); the model takes the ideal,
collision-free such hash, the ordered content list itself. -/
def calculate_group_id (txns : List Txn) : List Nat :=
  txns.map (·.content)

/-- Group tagging of one group member: `assign_group_id` sets the group
field of the flattened plain payload, which the wrapper fields alias in the
source, so every copy of the underlying payload is updated. -/
def InputTxnType.with_group (gid : List Nat) : InputTxnType → InputTxnType
  | InputTxnType.plain t => InputTxnType.plain { t with group := some gid }
  | InputTxnType.logic_sig l =>
      InputTxnType.logic_sig { l with transaction := { l.transaction with group := some gid } }
  | InputTxnType.multisig m =>
      InputTxnType.multisig
        { m with
          transaction := { m.transaction with group := some gid }
          multisig_transaction :=
            { m.multisig_transaction with
              transaction := { m.multisig_transaction.transaction with group := some gid } } }

/-- `transaction_ops._GroupTxn` (lines 1567-1607): the signers and the group
members, separated out of the constructor's pair list. -/
structure _GroupTxn where
  signers : List AlgoUser
  transactions : List InputTxnType
deriving DecidableEq, Repr

/-- `_GroupTxn.__init__` (lines 1579-1595): separate signers from payloads,
flatten the wrappers, derive the shared group id from the ordered flattened
payloads, and tag every underlying payload with it. -/
def _GroupTxn.make (transactions : List (AlgoUser × InputTxnType)) : _GroupTxn :=
  let signers := transactions.map (·.1)
  let txns := transactions.map (·.2)
  let gid := calculate_group_id (txns.map InputTxnType.flattened)
  { signers := signers, transactions := txns.map (InputTxnType.with_group gid) }

/-- The submittable forms of `_GroupTxn._SignedTxnType` (lines 1573-1577):
a credential-signed plain transaction, a logic-signature transaction, or a
multisig envelope. -/
inductive SignedTxn where
  | signed (t : Txn) (private_key : Option String)
  | logic (l : LogicSigTransaction)
  | multi (m : MultisigTransaction)
deriving DecidableEq, Repr

/-- Modelled from the spec: algosdk's `Transaction.sign` (external
collaborator) — the payload "can be signed given a credential, producing a
signed form" (spec 3, Unsigned Transaction Envelope). -/
def Txn.sign (t : Txn) (private_key : Option String) : SignedTxn :=
  SignedTxn.signed t private_key

/-- One iteration of the loop of `_GroupTxn.sign` (lines 1600-1605): a
logic-signature transaction is already signed and is appended as is; any
other payload is signed with the paired signer's credential. -/
def sign_member (signer : AlgoUser) : InputTxnType → SignedTxn
  | InputTxnType.logic_sig l => SignedTxn.logic l
  | InputTxnType.plain t => t.sign signer.private_key
  | InputTxnType.multisig m => SignedTxn.multi (m.sign signer.private_key)

/-- `_GroupTxn.sign` (lines 1597-1607): iterate the zipped signer/payload
pairs in stored order, signing each member with its paired signer. -/
def _GroupTxn.sign (self : _GroupTxn) (_ : Option String) : List SignedTxn :=
  (self.signers.zip self.transactions).map fun st => sign_member st.1 st.2

/-- `transaction_ops.group_transaction` (lines 1610-1627): the pipeline
applied, with `no_params` declared on, to the builder returning `_NullUser`
paired with a freshly constructed `_GroupTxn`; the Python function accepts
no `params` keyword, so the pipeline always sees `params = none`. -/
def group_transaction {Info : Type} (g : Globals) (net : Network SignedTxn Info)
    (transactions : List (AlgoUser × InputTxnType)) :
    PipelineResult _GroupTxn Unit × List (Event SignedTxn) :=
  transaction_boilerplate { no_params := true } g net "group_transaction"
    (fun signer txn => Sum.inr (txn.sign signer.private_key))
    (fun _ => Sum.inr [])
    (fun _ => (_NullUser, _GroupTxn.make transactions))
    none

/-- `transaction_ops.multisig_transaction` (lines 1542-1564): the pipeline
applied, with `no_params` declared on, to the builder returning `_NullUser`
paired with a freshly constructed `_MultisigTxn`; the Python function
accepts no `params` keyword, so the pipeline always sees `params = none`. -/
def multisig_transaction {Info : Type} (g : Globals) (net : Network SignedTxn Info)
    (multisig_account : MultisigAccount) (transaction : AlgoUser × Txn)
    (signing_accounts : List AlgoUser) :
    PipelineResult _MultisigTxn Unit × List (Event SignedTxn) :=
  transaction_boilerplate { no_params := true } g net "multisig_transaction"
    (fun signer txn => Sum.inl (SignedTxn.multi (txn.sign signer.private_key)))
    (fun _ => Sum.inr [])
    (fun _ => (_NullUser, _MultisigTxn.make transaction signing_accounts multisig_account))
    none

/-- One indexer asset-holding record, as read by `asset_balance`. -/
structure AssetHolding where
  asset_id : Nat
  amount : Nat
deriving DecidableEq, Repr

/-- The loop of `client_ops.asset_balance` (lines 236-242): return the
amount of the first holding whose asset id matches, else `none`. -/
def lookup_asset : List AssetHolding → Nat → Option Nat
  | [], _ => none
  | a :: rest, i => if a.asset_id = i then some a.amount else lookup_asset rest i

/-- `client_ops.asset_balance` (lines 230-242), applied to the account's
asset-holding list as fetched from the indexer. -/
def asset_balance (assets : List AssetHolding) (asset_id : Nat) : Option Nat :=
  lookup_asset assets asset_id

/-- The decorator configuration with every switch replaced by its effective
resolved value and no process-wide overrides left to apply. -/
def resolved_config {Info R : Type} (cfg : BoilerplateConfig Info R) (g : Globals) :
    BoilerplateConfig Info R :=
  { cfg with
    no_log := resolve g.no_log cfg.no_log
    no_params := resolve g.no_params cfg.no_params
    no_send := resolve g.no_send cfg.no_send
    no_sign := resolve g.no_sign cfg.no_sign
    with_txn_id := resolve g.with_txn_id cfg.with_txn_id }

/-- The ordered contents of the underlying plain payloads of a group
constructor argument list. -/
def member_contents (l : List (AlgoUser × InputTxnType)) : List Nat :=
  l.map fun p => p.2.flattened.content

/-- The group id `_GroupTxn.__init__` derives for a constructor argument
list: the content hash of the ordered flattened payloads. -/
def group_id_of (l : List (AlgoUser × InputTxnType)) : List Nat :=
  calculate_group_id ((l.map (·.2)).map InputTxnType.flattened)

/-- A concrete network facade for exercising the theorems on closed inputs. -/
def sample_net : Network Nat Nat :=
  { net_params := { fee := 3, flat_fee := false, first := 10, last := 1010 }
    process_transactions := fun _ => 5
    pending_transaction_info := fun _ => 9 }

/-- A concrete builder for exercising the theorems on closed inputs. -/
def sample_func : Option SuggestedParams → AlgoUser × Nat :=
  fun _ => ({ address := "A", private_key := some "kA" }, 42)

/-- A concrete signing function for exercising the theorems. -/
def sample_sign : AlgoUser → Nat → Nat ⊕ List Nat := fun _ t => Sum.inl t

/-- A concrete pass-through for exercising the theorems. -/
def sample_pass : Nat → Nat ⊕ List Nat := fun t => Sum.inl t

/-- A concrete explicit parameter record for exercising the theorems. -/
def sample_params : SuggestedParams := { fee := 7, flat_fee := true, first := 1, last := 2 }

/-- A concrete account for exercising the composite-transaction theorems. -/
def sample_owner : AlgoUser := { address := "O1", private_key := some "k1" }

/-- A second concrete account for the composite-transaction theorems. -/
def sample_owner2 : AlgoUser := { address := "O2", private_key := some "k2" }

/-- A concrete multisig account for exercising the theorems. -/
def sample_msig_account : MultisigAccount :=
  { version := 1, threshold := 3, owner_accounts := [sample_owner, sample_owner2] }

/-- A concrete network facade over submittable forms for exercising the
composite operations. -/
def sample_net_signed : Network SignedTxn Nat :=
  { net_params := { fee := 3, flat_fee := false, first := 10, last := 1010 }
    process_transactions := fun _ => 5
    pending_transaction_info := fun _ => 9 }

/-- A concrete group constructor argument list for exercising the
group-transaction theorems. -/
def sample_group_list : List (AlgoUser × InputTxnType) :=
  [(sample_owner, InputTxnType.plain { content := 1 }),
   (sample_owner2, InputTxnType.plain { content := 2 })]

/-- The reversal of `sample_group_list`. -/
def sample_group_list_rev : List (AlgoUser × InputTxnType) :=
  [(sample_owner2, InputTxnType.plain { content := 2 }),
   (sample_owner, InputTxnType.plain { content := 1 })]

/- ------------------------------------------------------------------ -/
/- Helper lemmas                                                      -/
/- ------------------------------------------------------------------ -/

theorem count_matching_append {S : Type} (p : Event S → Bool) (l1 l2 : List (Event S)) :
    count_matching p (l1 ++ l2) = count_matching p l1 + count_matching p l2 := by
  simp [count_matching]

theorem build_params_append {S : Type} (l1 l2 : List (Event S)) :
    build_params (l1 ++ l2) = build_params l1 ++ build_params l2 := by
  simp [build_params]

theorem post_trace_no_fetch {S : Type} (a b : Bool) (addr : String) (l : List S)
    (i : Nat) (m : String) :
    count_matching is_fetch (post_trace a b addr l i m) = 0 := by
  cases a <;> cases b <;> simp [post_trace, count_matching, is_fetch]

theorem post_trace_no_build {S : Type} (a b : Bool) (addr : String) (l : List S)
    (i : Nat) (m : String) :
    build_params (post_trace a b addr l i m) = [] := by
  cases a <;> cases b <;> simp [post_trace, build_params]

/-- The suggested-parameter fetches of a pipeline trace all lie in its
pre-send segment. -/
theorem boilerplate_count_fetch {T S R Info : Type} (cfg : BoilerplateConfig Info R)
    (g : Globals) (net : Network S Info) (func_name : String)
    (sign_with : AlgoUser → T → S ⊕ List S) (as_submittable : T → S ⊕ List S)
    (func : Option SuggestedParams → AlgoUser × T) (params : Option SuggestedParams) :
    count_matching is_fetch
        (transaction_boilerplate cfg g net func_name sign_with as_submittable func params).2
      = count_matching is_fetch
          (pre_trace (S := S) (resolve g.no_log cfg.no_log) (resolve g.no_params cfg.no_params)
            net.net_params func_name params) := by
  by_cases hsend : resolve g.no_send cfg.no_send <;>
    by_cases hid : resolve g.with_txn_id cfg.with_txn_id <;>
      simp [transaction_boilerplate, hsend, hid, count_matching_append, post_trace_no_fetch]

/-- The builder invocations of a pipeline trace all lie in its pre-send
segment. -/
theorem boilerplate_build_params {T S R Info : Type} (cfg : BoilerplateConfig Info R)
    (g : Globals) (net : Network S Info) (func_name : String)
    (sign_with : AlgoUser → T → S ⊕ List S) (as_submittable : T → S ⊕ List S)
    (func : Option SuggestedParams → AlgoUser × T) (params : Option SuggestedParams) :
    build_params
        (transaction_boilerplate cfg g net func_name sign_with as_submittable func params).2
      = build_params
          (pre_trace (S := S) (resolve g.no_log cfg.no_log) (resolve g.no_params cfg.no_params)
            net.net_params func_name params) := by
  by_cases hsend : resolve g.no_send cfg.no_send <;>
    by_cases hid : resolve g.with_txn_id cfg.with_txn_id <;>
      simp [transaction_boilerplate, hsend, hid, build_params_append, post_trace_no_build]

/-- Every pipeline trace starts with its pre-send segment. -/
theorem boilerplate_trace_prefix {T S R Info : Type} (cfg : BoilerplateConfig Info R)
    (g : Globals) (net : Network S Info) (func_name : String)
    (sign_with : AlgoUser → T → S ⊕ List S) (as_submittable : T → S ⊕ List S)
    (func : Option SuggestedParams → AlgoUser × T) (params : Option SuggestedParams) :
    ∃ rest : List (Event S),
      (transaction_boilerplate cfg g net func_name sign_with as_submittable func params).2
        = pre_trace (resolve g.no_log cfg.no_log) (resolve g.no_params cfg.no_params)
            net.net_params func_name params ++ rest := by
  by_cases hsend : resolve g.no_send cfg.no_send
  · exact ⟨[], by simp [transaction_boilerplate, hsend]⟩
  · by_cases hid : resolve g.with_txn_id cfg.with_txn_id
    · simp only [transaction_boilerplate, hsend, hid]
      simp only [if_true, if_false, Bool.false_eq_true, ite_true, ite_false, ite_self,
        eq_self_iff_true, if_pos, reduceIte]
      exact ⟨_, rfl⟩
    · simp only [transaction_boilerplate, hsend, hid]
      simp only [if_true, if_false, Bool.false_eq_true, ite_true, ite_false, ite_self,
        eq_self_iff_true, if_pos, reduceIte]
      exact ⟨_, rfl⟩

theorem pre_trace_fetch_count_none {S : Type} (a : Bool) (np : SuggestedParams)
    (fn : String) :
    count_matching is_fetch (pre_trace (S := S) a false np fn none) = 1 := by
  cases a <;> simp [pre_trace, count_matching, is_fetch]

theorem pre_trace_fetch_count_some {S : Type} (a b : Bool) (np : SuggestedParams)
    (fn : String) (p : SuggestedParams) :
    count_matching is_fetch (pre_trace (S := S) a b np fn (some p)) = 0 := by
  cases a <;> cases b <;> simp [pre_trace, count_matching, is_fetch]

theorem pre_trace_fetch_count_noparams {S : Type} (a : Bool) (np : SuggestedParams)
    (fn : String) (p : Option SuggestedParams) :
    count_matching is_fetch (pre_trace (S := S) a true np fn p) = 0 := by
  cases a <;> simp [pre_trace, count_matching, is_fetch]

theorem pre_trace_build_eq {S : Type} (a b : Bool) (np : SuggestedParams)
    (fn : String) (p : Option SuggestedParams) :
    build_params (pre_trace (S := S) a b np fn p) = [effective_params b np p] := by
  cases a <;> cases hp : p.isNone && !b <;> simp [pre_trace, build_params, hp]

theorem effective_params_none (np : SuggestedParams) :
    effective_params false np none = some (suggested_params np true 1000) := rfl

theorem effective_params_some (b : Bool) (np : SuggestedParams) (p : SuggestedParams) :
    effective_params b np (some p) = some p := by
  cases b <;> rfl

theorem effective_params_noparams (np : SuggestedParams) (p : Option SuggestedParams) :
    effective_params true np p = p := by
  cases p <;> rfl

theorem pre_trace_pre_only {S : Type} (a b : Bool) (np : SuggestedParams)
    (fn : String) (p : Option SuggestedParams) :
    count_matching is_sign (pre_trace (S := S) a b np fn p) = 0
    ∧ count_matching is_send (pre_trace (S := S) a b np fn p) = 0
    ∧ count_matching is_wait (pre_trace (S := S) a b np fn p) = 0
    ∧ count_matching is_info (pre_trace (S := S) a b np fn p) = 0 := by
  cases a <;> cases hp : p.isNone && !b <;>
    simp [pre_trace, hp, count_matching, is_sign, is_send, is_wait, is_info]

/- ------------------------------------------------------------------ -/
/- Claims                                                             -/
/- ------------------------------------------------------------------ -/

/-- C1: for every pipeline-wrapped call, if the caller passes no explicit
`params` and the effective no-params switch is false, the call performs
exactly one suggested-parameters fetch, with flat-fee mode enabled and the
fee fixed at 1000, and the builder receives exactly the fetched parameters;
if the caller passes explicit params, or the no-params switch is active,
zero fetches happen and the caller's params reach the builder unchanged. -/
theorem C1_param_injection {T S R Info : Type}
    (cfg : BoilerplateConfig Info R) (g : Globals) (net : Network S Info)
    (func_name : String) (sign_with : AlgoUser → T → S ⊕ List S)
    (as_submittable : T → S ⊕ List S)
    (func : Option SuggestedParams → AlgoUser × T)
    (params : Option SuggestedParams) :
    (params = none → resolve g.no_params cfg.no_params = false →
      count_matching is_fetch
        (transaction_boilerplate cfg g net func_name sign_with as_submittable func params).2 = 1
      ∧ Event.fetch_params true 1000
          ∈ (transaction_boilerplate cfg g net func_name sign_with as_submittable func params).2
      ∧ build_params
          (transaction_boilerplate cfg g net func_name sign_with as_submittable func params).2
        = [some (suggested_params net.net_params true 1000)])
    ∧ (∀ p : SuggestedParams, params = some p →
      count_matching is_fetch
        (transaction_boilerplate cfg g net func_name sign_with as_submittable func params).2 = 0
      ∧ build_params
          (transaction_boilerplate cfg g net func_name sign_with as_submittable func params).2
        = [some p])
    ∧ (resolve g.no_params cfg.no_params = true →
      count_matching is_fetch
        (transaction_boilerplate cfg g net func_name sign_with as_submittable func params).2 = 0
      ∧ build_params
          (transaction_boilerplate cfg g net func_name sign_with as_submittable func params).2
        = [params]) := by
  refine ⟨?_, ?_, ?_⟩
  · intro h1 h2
    subst h1
    refine ⟨?_, ?_, ?_⟩
    · rw [boilerplate_count_fetch, h2, pre_trace_fetch_count_none]
    · obtain ⟨rest, htr⟩ :=
        boilerplate_trace_prefix cfg g net func_name sign_with as_submittable func
          none
      rw [htr, h2]
      cases hl : resolve g.no_log cfg.no_log <;> simp [pre_trace]
    · rw [boilerplate_build_params, h2, pre_trace_build_eq, effective_params_none]
  · intro p h1
    subst h1
    refine ⟨?_, ?_⟩
    · rw [boilerplate_count_fetch, pre_trace_fetch_count_some]
    · rw [boilerplate_build_params, pre_trace_build_eq, effective_params_some]
  · intro h2
    refine ⟨?_, ?_⟩
    · rw [boilerplate_count_fetch, h2, pre_trace_fetch_count_noparams]
    · rw [boilerplate_build_params, h2, pre_trace_build_eq, effective_params_noparams]

/-- C1 witness: on a concrete call with no explicit params and default
switches, exactly one flat-fee fetch at fee 1000 happens and the builder
receives the fetched parameters; on the same call with explicit params,
zero fetches happen and the explicit params reach the builder. -/
theorem C1_param_injection_witness :
    (count_matching is_fetch
        (transaction_boilerplate ({} : BoilerplateConfig Nat Nat) {} sample_net "payment"
          sample_sign sample_pass sample_func none).2 = 1
      ∧ Event.fetch_params true 1000
          ∈ (transaction_boilerplate ({} : BoilerplateConfig Nat Nat) {} sample_net "payment"
              sample_sign sample_pass sample_func none).2
      ∧ build_params
          (transaction_boilerplate ({} : BoilerplateConfig Nat Nat) {} sample_net "payment"
            sample_sign sample_pass sample_func none).2
        = [some (suggested_params sample_net.net_params true 1000)])
    ∧ (count_matching is_fetch
        (transaction_boilerplate ({} : BoilerplateConfig Nat Nat) {} sample_net "payment"
          sample_sign sample_pass sample_func (some sample_params)).2 = 0
      ∧ build_params
          (transaction_boilerplate ({} : BoilerplateConfig Nat Nat) {} sample_net "payment"
            sample_sign sample_pass sample_func (some sample_params)).2
        = [some sample_params]) := by
  refine ⟨?_, ?_⟩
  · exact (C1_param_injection ({} : BoilerplateConfig Nat Nat) {} sample_net "payment"
      sample_sign sample_pass sample_func none).1 rfl rfl
  · exact (C1_param_injection ({} : BoilerplateConfig Nat Nat) {} sample_net "payment"
      sample_sign sample_pass sample_func (some sample_params)).2.1 sample_params rfl

/-- C2: when the effective defer-send switch is true, the wrapped call
returns the (signer, payload) pair produced by the builder unchanged, and
its trace contains no signing, no submission, no confirmation wait, and no
confirmed-info fetch. -/
theorem C2_defer_send {T S R Info : Type}
    (cfg : BoilerplateConfig Info R) (g : Globals) (net : Network S Info)
    (func_name : String) (sign_with : AlgoUser → T → S ⊕ List S)
    (as_submittable : T → S ⊕ List S)
    (func : Option SuggestedParams → AlgoUser × T)
    (params : Option SuggestedParams)
    (h : resolve g.no_send cfg.no_send = true) :
    (transaction_boilerplate cfg g net func_name sign_with as_submittable func params).1
      = PipelineResult.unsent
          (func (effective_params (resolve g.no_params cfg.no_params) net.net_params params)).1
          (func (effective_params (resolve g.no_params cfg.no_params) net.net_params params)).2
    ∧ count_matching is_sign
        (transaction_boilerplate cfg g net func_name sign_with as_submittable func params).2 = 0
    ∧ count_matching is_send
        (transaction_boilerplate cfg g net func_name sign_with as_submittable func params).2 = 0
    ∧ count_matching is_wait
        (transaction_boilerplate cfg g net func_name sign_with as_submittable func params).2 = 0
    ∧ count_matching is_info
        (transaction_boilerplate cfg g net func_name sign_with as_submittable func params).2 = 0 := by
  have htr : (transaction_boilerplate cfg g net func_name sign_with as_submittable func params).2
      = pre_trace (resolve g.no_log cfg.no_log) (resolve g.no_params cfg.no_params)
          net.net_params func_name params := by
    simp [transaction_boilerplate, h]
  have hres :
      (transaction_boilerplate cfg g net func_name sign_with as_submittable func params).1
        = PipelineResult.unsent
            (func (effective_params (resolve g.no_params cfg.no_params) net.net_params params)).1
            (func (effective_params (resolve g.no_params cfg.no_params) net.net_params params)).2 := by
    simp [transaction_boilerplate, h]
  obtain ⟨h1, h2, h3, h4⟩ :=
    pre_trace_pre_only (S := S) (resolve g.no_log cfg.no_log)
      (resolve g.no_params cfg.no_params) net.net_params func_name params
  rw [htr]
  exact ⟨hres, h1, h2, h3, h4⟩

/-- C2 witness: a concrete call inside an unsent-transactions override
returns the unsent builder pair with no signing, submission, wait, or info
events. -/
theorem C2_defer_send_witness :
    (transaction_boilerplate ({} : BoilerplateConfig Nat Nat)
        { no_send := some true } sample_net "payment"
        sample_sign sample_pass sample_func (some sample_params)).1
      = PipelineResult.unsent { address := "A", private_key := some "kA" } 42
    ∧ count_matching is_sign
        (transaction_boilerplate ({} : BoilerplateConfig Nat Nat)
          { no_send := some true } sample_net "payment"
          sample_sign sample_pass sample_func (some sample_params)).2 = 0 := by
  obtain ⟨h1, h2, _, _, _⟩ :=
    C2_defer_send ({} : BoilerplateConfig Nat Nat) { no_send := some true } sample_net
      "payment" sample_sign sample_pass sample_func (some sample_params) rfl
  exact ⟨h1, h2⟩

/-- C7: each of the five switches resolves to the process-wide override
when one is active and to the decorator-declared default otherwise; a
wrapped call under overrides is literally the call whose declared defaults
are the five resolved switch values and with no overrides active. -/
theorem C7_switch_resolution :
    (∀ (v d : Bool), resolve (some v) d = v)
    ∧ (∀ d : Bool, resolve none d = d)
    ∧ (∀ (T S R Info : Type) (cfg : BoilerplateConfig Info R) (g : Globals)
        (net : Network S Info) (func_name : String)
        (sign_with : AlgoUser → T → S ⊕ List S) (as_submittable : T → S ⊕ List S)
        (func : Option SuggestedParams → AlgoUser × T) (params : Option SuggestedParams),
        transaction_boilerplate cfg g net func_name sign_with as_submittable func params
          = transaction_boilerplate (resolved_config cfg g) {} net func_name sign_with
              as_submittable func params) :=
  ⟨fun _ _ => rfl, fun _ => rfl, fun _ _ _ _ _ _ _ _ _ _ _ _ => rfl⟩

/-- C8 counterexample: at a concrete wrapped call with logging on and
parameter injection performed, the suggested-parameters fetch is trace
event 0 and the running-log line is trace event 1, so the claimed ordering
(running log emitted before the fetch) is false. -/
theorem C8_counterexample :
    first_index is_fetch
        (transaction_boilerplate ({} : BoilerplateConfig Nat Nat) {} sample_net "payment"
          sample_sign sample_pass sample_func none).2 = some 0
    ∧ first_index is_log
        (transaction_boilerplate ({} : BoilerplateConfig Nat Nat) {} sample_net "payment"
          sample_sign sample_pass sample_func none).2 = some 1
    ∧ ¬ (∀ i j : Nat,
          first_index is_log
              (transaction_boilerplate ({} : BoilerplateConfig Nat Nat) {} sample_net "payment"
                sample_sign sample_pass sample_func none).2 = some i →
          first_index is_fetch
              (transaction_boilerplate ({} : BoilerplateConfig Nat Nat) {} sample_net "payment"
                sample_sign sample_pass sample_func none).2 = some j →
          i < j) := by
  refine ⟨by decide, by decide, fun hcl => ?_⟩
  exact absurd (hcl 1 0 (by decide) (by decide)) (by omega)

/-- C8 (amended): in every pipeline-wrapped call where logging is not
suppressed and parameters are injected, the suggested-parameters fetch is
the first trace event and the running-log line is the second: the fetch
precedes the running-log event (the source fetches before it logs, the
reverse of the claimed order). -/
theorem C8_fetch_precedes_running_log {T S R Info : Type}
    (cfg : BoilerplateConfig Info R) (g : Globals) (net : Network S Info)
    (func_name : String) (sign_with : AlgoUser → T → S ⊕ List S)
    (as_submittable : T → S ⊕ List S)
    (func : Option SuggestedParams → AlgoUser × T)
    (params : Option SuggestedParams)
    (hp : params = none) (hnp : resolve g.no_params cfg.no_params = false)
    (hnl : resolve g.no_log cfg.no_log = false) :
    first_index is_fetch
        (transaction_boilerplate cfg g net func_name sign_with as_submittable func params).2
      = some 0
    ∧ first_index is_log
        (transaction_boilerplate cfg g net func_name sign_with as_submittable func params).2
      = some 1 := by
  subst hp
  obtain ⟨rest, htr⟩ :=
    boilerplate_trace_prefix cfg g net func_name sign_with as_submittable func none
  rw [hnp, hnl] at htr
  rw [htr]
  simp [pre_trace, first_index, is_fetch, is_log]

/-- C8 witness: the amended ordering at a concrete call. -/
theorem C8_fetch_precedes_running_log_witness :
    first_index is_fetch
        (transaction_boilerplate ({} : BoilerplateConfig Nat Nat) {} sample_net "payment"
          sample_sign sample_pass sample_func none).2 = some 0
    ∧ first_index is_log
        (transaction_boilerplate ({} : BoilerplateConfig Nat Nat) {} sample_net "payment"
          sample_sign sample_pass sample_func none).2 = some 1 :=
  C8_fetch_precedes_running_log ({} : BoilerplateConfig Nat Nat) {} sample_net "payment"
    sample_sign sample_pass sample_func none rfl rfl rfl

/-- C4 counterexample: with an outer unsent-transaction scope active
(`no_send` set process-wide), entering and then exiting an inner
unsent-transaction scope resets `no_send` to unset instead of restoring
the value the outer scope had set, so the pre-scope state is not
restored. -/
theorem C4_counterexample :
    ((with_context TxnElemsContext.on_enter TxnElemsContext.on_exit
        (fun g => (Outcome.ok 0, g)) (TxnElemsContext.on_enter {})).2).no_send = none
    ∧ (TxnElemsContext.on_enter {}).no_send = some true
    ∧ (with_context TxnElemsContext.on_enter TxnElemsContext.on_exit
        (fun g => (Outcome.ok 0, g)) (TxnElemsContext.on_enter {})).2
      ≠ TxnElemsContext.on_enter {} := by
  refine ⟨rfl, rfl, ?_⟩
  decide

/-- C4 (amended): exiting a behavior-switch scope resets exactly the
switches it manages to unset (inherit-default) on every exit path, normal
or raising; hence the pre-scope state of those switches is restored
precisely when they were unset before entry, i.e. when the scope is not
nested inside another scope of the same switch. -/
theorem C4_scope_reset {A B : Type} (g : Globals)
    (body : Globals → Outcome A × Globals) (body2 : Globals → Outcome B × Globals) :
    ((with_context TxnElemsContext.on_enter TxnElemsContext.on_exit body g).2.no_send = none
      ∧ (with_context TxnElemsContext.on_enter TxnElemsContext.on_exit body g).2.no_log = none)
    ∧ (with_context TxnIDContext.on_enter TxnIDContext.on_exit body2 g).2.with_txn_id = none
    ∧ (g.no_send = none → g.no_log = none →
        (with_context TxnElemsContext.on_enter TxnElemsContext.on_exit body g).2.no_send
            = g.no_send
          ∧ (with_context TxnElemsContext.on_enter TxnElemsContext.on_exit body g).2.no_log
            = g.no_log) := by
  refine ⟨⟨rfl, rfl⟩, rfl, fun h1 h2 => ?_⟩
  constructor
  · rw [h1]; rfl
  · rw [h2]; rfl

/-- C4 witness: the reset happens concretely with a raising body, and with
an unset pre-scope state the pre-scope values are restored. -/
theorem C4_scope_reset_witness :
    ((with_context TxnElemsContext.on_enter TxnElemsContext.on_exit
        (fun g => ((Outcome.raised : Outcome Nat), g)) {}).2.no_send = none
      ∧ (with_context TxnElemsContext.on_enter TxnElemsContext.on_exit
          (fun g => ((Outcome.raised : Outcome Nat), g)) {}).2.no_log = none)
    ∧ ((with_context TxnElemsContext.on_enter TxnElemsContext.on_exit
        (fun g => ((Outcome.raised : Outcome Nat), g)) {}).2.no_send = ({} : Globals).no_send
      ∧ (with_context TxnElemsContext.on_enter TxnElemsContext.on_exit
          (fun g => ((Outcome.raised : Outcome Nat), g)) {}).2.no_log = ({} : Globals).no_log) := by
  refine ⟨?_, ?_⟩
  · exact (C4_scope_reset {} (fun g => ((Outcome.raised : Outcome Nat), g))
      (fun g => ((Outcome.raised : Outcome Nat), g))).1
  · exact (C4_scope_reset {} (fun g => ((Outcome.raised : Outcome Nat), g))
      (fun g => ((Outcome.raised : Outcome Nat), g))).2.2 rfl rfl

theorem group_id_eq_contents (l : List (AlgoUser × InputTxnType)) :
    group_id_of l = member_contents l := by
  simp [group_id_of, calculate_group_id, member_contents]

theorem flattened_with_group (gid : List Nat) (x : InputTxnType) :
    (x.with_group gid).flattened = { x.flattened with group := some gid } := by
  cases x <;> rfl

theorem make_transactions_eq (l : List (AlgoUser × InputTxnType)) :
    (_GroupTxn.make l).transactions
      = (l.map (·.2)).map (InputTxnType.with_group (group_id_of l)) := rfl

/-- C3: the group id assigned by group-transaction construction is a pure
function of the ordered list of underlying payload contents (constructing
twice from the same list yields the same id); any change to the ordered
content sequence, in particular a reordering that changes it, yields a
different id; and the id is derived from and tagged onto the underlying
plain payload of every member, including logic-signature and multisig
wrappers. -/
theorem C3_group_id_pure (l1 l2 : List (AlgoUser × InputTxnType)) :
    (member_contents l1 = member_contents l2 → group_id_of l1 = group_id_of l2)
    ∧ (member_contents l1 ≠ member_contents l2 → group_id_of l1 ≠ group_id_of l2)
    ∧ (_GroupTxn.make l1).transactions
        = (l1.map (·.2)).map (InputTxnType.with_group (group_id_of l1))
    ∧ (∀ m ∈ (_GroupTxn.make l1).transactions,
        m.flattened.group = some (group_id_of l1)) := by
  refine ⟨?_, ?_, make_transactions_eq l1, ?_⟩
  · intro h
    rw [group_id_eq_contents, group_id_eq_contents, h]
  · intro h hg
    exact h (by rw [← group_id_eq_contents, ← group_id_eq_contents, hg])
  · intro m hm
    rw [make_transactions_eq, List.map_map] at hm
    obtain ⟨p, _, rfl⟩ := List.mem_map.mp hm
    rw [Function.comp_apply, flattened_with_group]

/-- C3 witness: on a two-payment list the id is reproducible, its reversal
(whose content sequence differs) yields a different id, and every member's
underlying payload carries the assigned tag. -/
theorem C3_group_id_pure_witness :
    group_id_of sample_group_list = group_id_of sample_group_list
    ∧ group_id_of sample_group_list ≠ group_id_of sample_group_list_rev
    ∧ (∀ m ∈ (_GroupTxn.make sample_group_list).transactions,
        m.flattened.group = some (group_id_of sample_group_list)) := by
  refine ⟨?_, ?_, ?_⟩
  · exact (C3_group_id_pure sample_group_list sample_group_list).1 rfl
  · exact (C3_group_id_pure sample_group_list sample_group_list_rev).2.1 (by decide)
  · exact (C3_group_id_pure sample_group_list sample_group_list).2.2.2

theorem zip_map_map {A B C D : Type} (f : A → B) (g : A → C) (h : B → C → D)
    (l : List A) :
    ((l.map f).zip (l.map g)).map (fun p => h p.1 p.2)
      = l.map fun x => h (f x) (g x) := by
  induction l with
  | nil => rfl
  | cons x xs ih => simp [ih]

/-- C5: signing a group transaction iterates the signer/payload pairs in
the exact caller-supplied construction order: the result is the
construction list mapped in place, where a logic-signature member is
appended as is and every other member is signed with the signer paired
with it at construction; the output has one submittable per input pair. -/
theorem C5_group_sign_order (pairs : List (AlgoUser × InputTxnType)) (k : Option String) :
    (_GroupTxn.make pairs).sign k
      = pairs.map (fun p => sign_member p.1 (p.2.with_group (group_id_of pairs)))
    ∧ ((_GroupTxn.make pairs).sign k).length = pairs.length := by
  have h : (_GroupTxn.make pairs).sign k
      = pairs.map (fun p => sign_member p.1 (p.2.with_group (group_id_of pairs))) := by
    have h2 := zip_map_map (fun x : AlgoUser × InputTxnType => x.1)
      (fun p : AlgoUser × InputTxnType => InputTxnType.with_group (group_id_of pairs) p.2)
      sign_member pairs
    simp only [group_id_of, List.map_map, Function.comp] at h2 ⊢
    simp only [_GroupTxn.sign, _GroupTxn.make, List.map_map, Function.comp]
    exact h2
  exact ⟨h, by rw [h, List.length_map]⟩

theorem foldl_msig_sign (l : List AlgoUser) (m : MultisigTransaction) :
    l.foldl (fun m acct => m.sign acct.private_key) m
      = { m with multisig :=
            { m.multisig with sigs := m.multisig.sigs ++ l.map (·.private_key) } } := by
  induction l generalizing m with
  | nil => simp
  | cons a rest ih =>
    rw [List.foldl_cons, ih]
    simp [MultisigTransaction.sign, List.append_assoc]

/-- C6: signing a multisig transaction applies each listed signing
account's credential in list order onto the envelope around the original
payload, and succeeds locally (producing the submittable envelope) even
when the number of signing accounts is below the multisig account's
threshold; the accumulated signatures do not depend on the threshold, so
no client-side threshold check is performed. -/
theorem C6_multisig_no_threshold_check (transaction : AlgoUser × Txn)
    (signing_accounts : List AlgoUser) (acct : MultisigAccount) (k : Option String)
    (h : signing_accounts.length < acct.threshold) :
    ((_MultisigTxn.make transaction signing_accounts acct).sign k).multisig.sigs
        = signing_accounts.map (·.private_key)
    ∧ ((_MultisigTxn.make transaction signing_accounts acct).sign k).transaction
        = transaction.2
    ∧ ∀ t' : Nat,
        ((_MultisigTxn.make transaction signing_accounts
            { acct with threshold := t' }).sign k).multisig.sigs
          = ((_MultisigTxn.make transaction signing_accounts acct).sign k).multisig.sigs := by
  have key : ∀ a : MultisigAccount,
      ((_MultisigTxn.make transaction signing_accounts a).sign k).multisig.sigs
        = signing_accounts.map (·.private_key) := by
    intro a
    simp [_MultisigTxn.sign, _MultisigTxn.make, foldl_msig_sign, MultisigAccount.attributes]
  refine ⟨key acct, ?_, fun t' => by rw [key, key]⟩
  simp [_MultisigTxn.sign, _MultisigTxn.make, foldl_msig_sign]

/-- C6 witness: one signer against a threshold of three still produces the
envelope, with exactly that signer's credential applied. -/
theorem C6_multisig_no_threshold_check_witness :
    (1 : Nat) < sample_msig_account.threshold
    ∧ ((_MultisigTxn.make (_NullUser, { content := 1 }) [sample_owner]
          sample_msig_account).sign none).multisig.sigs
        = [some "k1"] := by
  refine ⟨by decide, ?_⟩
  have h := (C6_multisig_no_threshold_check (_NullUser, { content := 1 }) [sample_owner]
    sample_msig_account none (by decide)).1
  rw [h]
  rfl

/-- C9: the group-transaction and multisig-transaction operations are
declared with the no-params switch on, so absent a process-wide override
their wrapped calls perform zero suggested-parameters fetches and their
builders run with no injected params (the inner transactions are used
as built). -/
theorem C9_composite_no_params {Info : Type} (g : Globals) (net : Network SignedTxn Info)
    (txns : List (AlgoUser × InputTxnType)) (macct : MultisigAccount)
    (tx : AlgoUser × Txn) (saccts : List AlgoUser)
    (h : g.no_params = none) :
    (count_matching is_fetch (group_transaction g net txns).2 = 0
      ∧ build_params (group_transaction g net txns).2 = [none])
    ∧ (count_matching is_fetch (multisig_transaction g net macct tx saccts).2 = 0
      ∧ build_params (multisig_transaction g net macct tx saccts).2 = [none]) := by
  refine ⟨⟨?_, ?_⟩, ⟨?_, ?_⟩⟩
  · rw [group_transaction, boilerplate_count_fetch]
    simp [h, resolve, pre_trace_fetch_count_noparams]
  · rw [group_transaction, boilerplate_build_params, pre_trace_build_eq]
    simp [h, resolve, effective_params_noparams]
  · rw [multisig_transaction, boilerplate_count_fetch]
    simp [h, resolve, pre_trace_fetch_count_noparams]
  · rw [multisig_transaction, boilerplate_build_params, pre_trace_build_eq]
    simp [h, resolve, effective_params_noparams]

/-- C9 witness: concrete group and multisig calls with no override fetch
nothing and pass no params to their builders. -/
theorem C9_composite_no_params_witness :
    (count_matching is_fetch (group_transaction {} sample_net_signed sample_group_list).2 = 0
      ∧ build_params (group_transaction {} sample_net_signed sample_group_list).2 = [none])
    ∧ (count_matching is_fetch
          (multisig_transaction {} sample_net_signed sample_msig_account
            (_NullUser, { content := 1 }) [sample_owner]).2 = 0
      ∧ build_params
          (multisig_transaction {} sample_net_signed sample_msig_account
            (_NullUser, { content := 1 }) [sample_owner]).2 = [none]) :=
  C9_composite_no_params {} sample_net_signed sample_group_list sample_msig_account
    (_NullUser, { content := 1 }) [sample_owner] rfl

theorem lookup_asset_eq_some (assets : List AssetHolding) (a : AssetHolding) (i : Nat)
    (ha : a ∈ assets) (hai : a.asset_id = i)
    (hnd : (assets.map (·.asset_id)).Nodup) :
    lookup_asset assets i = some a.amount := by
  induction assets with
  | nil => cases ha
  | cons b rest ih =>
    rw [List.map_cons, List.nodup_cons] at hnd
    rcases List.mem_cons.mp ha with hh | hh
    · subst hh
      simp [lookup_asset, hai]
    · have hmem : i ∈ rest.map (·.asset_id) := hai ▸ List.mem_map_of_mem _ hh
      have hib : ¬ b.asset_id = i := fun hb => hnd.1 (hb ▸ hmem)
      simp only [lookup_asset, hib, if_false]
      exact ih hh hnd.2

theorem lookup_asset_eq_none (assets : List AssetHolding) (i : Nat)
    (h : ∀ a ∈ assets, a.asset_id ≠ i) :
    lookup_asset assets i = none := by
  induction assets with
  | nil => rfl
  | cons b rest ih =>
    simp only [lookup_asset, h b (List.mem_cons_self b rest), if_false]
    exact ih fun a ha => h a (List.mem_cons_of_mem b ha)

/-- C10: the asset-balance query returns the held amount when the
account's asset list contains an entry for the asset id (entries keyed
uniquely, as the indexer reports one holding per asset), and returns
`none`, rather than raising or returning zero, when no entry for the
asset id is present. -/
theorem C10_asset_balance (assets : List AssetHolding) (i : Nat) :
    (∀ a ∈ assets, a.asset_id = i → (assets.map (·.asset_id)).Nodup →
        asset_balance assets i = some a.amount)
    ∧ ((∀ a ∈ assets, a.asset_id ≠ i) → asset_balance assets i = none) :=
  ⟨fun a ha hai hnd => lookup_asset_eq_some assets a i ha hai hnd,
   fun h => lookup_asset_eq_none assets i h⟩

/-- C10 witness: on a concrete two-holding account, the held amount is
returned for a present asset id and `none` for an absent one. -/
theorem C10_asset_balance_witness :
    asset_balance [{ asset_id := 5, amount := 100 }, { asset_id := 7, amount := 3 }] 7
      = some 3
    ∧ asset_balance [{ asset_id := 5, amount := 100 }, { asset_id := 7, amount := 3 }] 9
      = none := by
  constructor
  · exact (C10_asset_balance
        [{ asset_id := 5, amount := 100 }, { asset_id := 7, amount := 3 }] 7).1
      { asset_id := 7, amount := 3 } (by decide) rfl (by decide)
  · exact (C10_asset_balance
        [{ asset_id := 5, amount := 100 }, { asset_id := 7, amount := 3 }] 9).2
      (by decide)

end Algopytest
